import Mathlib

/-!
Shallow embedding of the unified-lead identity-resolution and funnel-analysis
engine of `workspace/weekly-marketing-report.js`, together with theorems that
settle the specification claims about it.

Modelling conventions:
* JS strings are `String`; JS numbers used as indices or stage levels are
  `Int`/`Nat`.  The JS string primitives used by the source (`trim`,
  `toLowerCase`, `split`, `includes`, `slice`) are modelled by executable
  char-list functions below.
* A JS `Date` is represented by its time value as an `Int` (milliseconds);
  the ambient `new Date()` ("now", read once per analysis run) becomes an
  explicit parameter.  A field that the source stores as a raw string and
  only ever passes through `new Date(...)` is modelled as the `Option Int`
  result of that parse (`none` = invalid date).
* JS `Map`s and plain objects used as dictionaries are association lists in
  insertion order; the JS `Set` of claimed patient ids is a duplicate-free
  list.
-/

/-- Models JS `String.prototype.trim`: drop whitespace from both ends. -/
def jsTrim (s : String) : String :=
  String.mk (((s.toList.dropWhile Char.isWhitespace).reverse.dropWhile
    Char.isWhitespace).reverse)

/-- Models JS `String.prototype.toLowerCase` (ASCII, which is all the source
vocabulary needs). -/
def jsToLower (s : String) : String :=
  String.mk (s.toList.map Char.toLower)

/-- Split helper for JS `String.prototype.split` with a character class:
separators delimit (possibly empty) fields. -/
def splitCharsAux (p : Char → Bool) : List Char → List Char → List (List Char)
  | [], acc => [acc.reverse]
  | c :: rest, acc =>
    if p c then acc.reverse :: splitCharsAux p rest []
    else splitCharsAux p rest (c :: acc)

/-- Models JS `s.split(sep)` for a single-character class separator. -/
def jsSplit (s : String) (p : Char → Bool) : List String :=
  (splitCharsAux p s.toList []).map String.mk

/-- Models JS `String.prototype.includes` for a one-character needle. -/
def containsChar (s : String) (c : Char) : Bool :=
  s.toList.contains c

/-- Models `Array.prototype.indexOf` on a list of strings: index of the first
occurrence, or `-1` when the element is absent. -/
def jsIndexOf (l : List String) (s : String) : Int :=
  match l.findIdx? (fun x => x = s) with
  | some i => (i : Int)
  | none => -1

/-- Last `n` characters of a string (JS `slice(-n)`; strings shorter than `n`
are returned whole). -/
def takeLast (n : Nat) (s : String) : String :=
  String.mk (s.toList.drop (s.toList.length - n))

/-- Models JS `String.prototype.includes` for a substring pattern. -/
def containsSub (s pat : String) : Bool :=
  decide (pat.toList <:+: s.toList)

/-- True when the string's first character is a decimal digit (JS `/^\d/`). -/
def startsWithDigit (s : String) : Bool :=
  match s.toList with
  | [] => false
  | c :: _ => c.isDigit

/-- Models `normalizePhone` (weekly-marketing-report.js:255): strip all
non-digit characters; if at least 10 digits remain keep the last 10 (dropping
a country code), otherwise keep the digit string as-is. -/
def normalizePhone (raw : String) : String :=
  if raw = "" then ""
  else
    let digits := String.mk (raw.toList.filter Char.isDigit)
    if digits.length ≥ 10 then takeLast 10 digits else digits

/-- Fuel-driven worker for `stripParens`; the fuel is an upper bound on the
input length, so the `0` case is never reached from `stripParens`. -/
def stripParensFuel : Nat → List Char → List Char
  | 0, l => l
  | _ + 1, [] => []
  | fuel + 1, '(' :: rest =>
    if ')' ∈ rest then
      stripParensFuel fuel (rest.drop ((rest.takeWhile (fun c => c ≠ ')')).length + 1))
    else '(' :: rest
  | fuel + 1, c :: rest => c :: stripParensFuel fuel rest

/-- Models the JS regex replace `fullName.replace(/\([^)]*\)/g, '')` used by
`extractLastName`: delete every span from a `(` to the next `)`; a `(` with
no closing `)` (and everything after it) is kept verbatim, as the regex then
cannot match anywhere in the remainder. -/
def stripParens (l : List Char) : List Char :=
  stripParensFuel l.length l

/-- Models `extractLastName` (weekly-marketing-report.js:261): strip
parenthetical nicknames, split on whitespace, take the last word, lowercased
(so `"Tina Kang and Kunalajit (Kunal) Kang"` gives the shared surname). -/
def extractLastName (fullName : String) : String :=
  if fullName = "" then ""
  else
    let cleaned := jsTrim (String.mk (stripParens fullName.toList))
    let parts := (jsSplit cleaned Char.isWhitespace).filter (fun w => w ≠ "")
    match parts.getLast? with
    | none => ""
    | some w => jsToLower w

/-- Models `splitEmails` (weekly-marketing-report.js:272): split on `;`/`,`,
trim + lowercase, keep entries longer than 3 characters containing `@`. -/
def splitEmails (emailField : String) : List String :=
  if emailField = "" then []
  else
    ((jsSplit emailField (fun c => c = ';' || c = ',')).map
        (fun e => jsToLower (jsTrim e))).filter
      (fun e => e.length > 3 && containsChar e '@')

/-- Digit-string value, used to model JS `Number(...)` on integer literals. -/
def digitsToNat (l : List Char) : Nat :=
  l.foldl (fun n c => n * 10 + (c.toNat - 48)) 0

/-- Finite JS number, represented exactly as the scaled decimal
`num / 10 ^ scale` (the representation is not normalized; the operations
below never need it to be).  Numeric string literals are modelled as the
exact decimals they denote — double rounding of extreme literals is beyond
this model's scope. -/
structure DecNum where
  num : Int
  scale : Nat
  deriving Repr, DecidableEq

/-- Leading decimal digits of a character list, plus the rest. -/
def takeDigits (cs : List Char) : List Char × List Char :=
  (cs.takeWhile Char.isDigit, cs.dropWhile Char.isDigit)

/-- Digit value in a base up to 36 (`0-9`, `a-z`, `A-Z`), `none` otherwise. -/
def radixDigitVal (base : Nat) (c : Char) : Option Nat :=
  let v :=
    if c.isDigit then some (c.toNat - 48)
    else if 'a' ≤ c ∧ c ≤ 'z' then some (c.toNat - 87)
    else if 'A' ≤ c ∧ c ≤ 'Z' then some (c.toNat - 55)
    else none
  match v with
  | some n => if n < base then some n else none
  | none => none

/-- Value of a non-decimal integer literal body (after `0x`/`0o`/`0b`):
nonempty and all digits of the base, else `NaN`. -/
def radixNat? (base : Nat) : List Char → Option Nat
  | [] => none
  | cs =>
    cs.foldl
      (fun acc c =>
        match acc, radixDigitVal base c with
        | some n, some v => some (n * base + v)
        | _, _ => none)
      (some 0)

/-- Optional `ExponentPart` after a decimal literal: nothing, or
`e`/`E` with an optional sign and digits ending the string; anything else
makes the literal `NaN`. -/
def parseExpPart (base : DecNum) (cs : List Char) : Option DecNum :=
  match cs with
  | [] => some base
  | c :: rest =>
    if c = 'e' ∨ c = 'E' then
      let signAndRest : Bool × List Char :=
        match rest with
        | '+' :: cs2 => (false, cs2)
        | '-' :: cs2 => (true, cs2)
        | cs2 => (false, cs2)
      let ds := (takeDigits signAndRest.2).1
      let rest3 := (takeDigits signAndRest.2).2
      if ds = [] ∨ rest3 ≠ [] then none
      else if signAndRest.1 then some ⟨base.num, base.scale + digitsToNat ds⟩
      else some ⟨base.num * ((10 : Int) ^ digitsToNat ds), base.scale⟩
    else none

/-- `StrUnsignedDecimalLiteral` of JS `Number(...)`:
`digits [. digits] [exp]` or `. digits [exp]`; `Infinity` is mapped to
`none` here because the only consumer (`parseDateLoose`) builds a `Date`
from the value, and an infinite component makes that date invalid exactly
like `NaN` does. -/
def parseUnsignedDec (cs : List Char) : Option DecNum :=
  if cs = ['I', 'n', 'f', 'i', 'n', 'i', 't', 'y'] then none
  else
    let ip := (takeDigits cs).1
    match (takeDigits cs).2 with
    | '.' :: rest2 =>
      let fp := (takeDigits rest2).1
      let rest3 := (takeDigits rest2).2
      if ip = [] ∧ fp = [] then none
      else
        parseExpPart
          ⟨(digitsToNat ip : Int) * ((10 : Int) ^ fp.length) + (digitsToNat fp : Int),
            fp.length⟩ rest3
    | rest1 =>
      if ip = [] then none
      else parseExpPart ⟨(digitsToNat ip : Int), 0⟩ rest1

/-- Models JS `Number(...)` (`StringNumericLiteral`): surrounding whitespace
is trimmed, a blank string is `0`, then an optionally signed decimal literal
(with fraction and exponent) or an unsigned `0x`/`0o`/`0b` integer literal;
anything else is `NaN`, i.e. `none` (as is `Infinity`, see
`parseUnsignedDec`). -/
def jsNumber (s : String) : Option DecNum :=
  match (jsTrim s).toList with
  | [] => some ⟨0, 0⟩
  | '0' :: 'x' :: cs => (radixNat? 16 cs).map (fun n => ⟨(n : Int), 0⟩)
  | '0' :: 'X' :: cs => (radixNat? 16 cs).map (fun n => ⟨(n : Int), 0⟩)
  | '0' :: 'o' :: cs => (radixNat? 8 cs).map (fun n => ⟨(n : Int), 0⟩)
  | '0' :: 'O' :: cs => (radixNat? 8 cs).map (fun n => ⟨(n : Int), 0⟩)
  | '0' :: 'b' :: cs => (radixNat? 2 cs).map (fun n => ⟨(n : Int), 0⟩)
  | '0' :: 'B' :: cs => (radixNat? 2 cs).map (fun n => ⟨(n : Int), 0⟩)
  | '+' :: cs => parseUnsignedDec cs
  | '-' :: cs => (parseUnsignedDec cs).map (fun q => ⟨-q.num, q.scale⟩)
  | cs => parseUnsignedDec cs

/-- ECMAScript `ToIntegerOrInfinity` on a finite value: truncation toward
zero. -/
def DecNum.trunc (q : DecNum) : Int :=
  q.num.tdiv ((10 : Int) ^ q.scale)

/-- Add an integer to a scaled decimal. -/
def DecNum.addInt (q : DecNum) (n : Int) : DecNum :=
  ⟨q.num + n * ((10 : Int) ^ q.scale), q.scale⟩

/-- Compare a scaled decimal with an integer (`q < n`). -/
def DecNum.ltInt (q : DecNum) (n : Int) : Prop :=
  q.num < n * ((10 : Int) ^ q.scale)

instance (q : DecNum) (n : Int) : Decidable (q.ltInt n) :=
  inferInstanceAs (Decidable (_ < _))

/-- Days since 1970-01-01 of a civil date with month in `[1,12]` (the
standard days-from-civil formula, matching the ECMAScript `MakeDay`
computation used by `new Date(y, m, d)`). -/
def daysFromCivil (y m d : Int) : Int :=
  let y2 := if m ≤ 2 then y - 1 else y
  let era := y2.fdiv 400
  let yoe := y2 - era * 400
  let mp := if m > 2 then m - 3 else m + 9
  let doy := (153 * mp + 2).fdiv 5 + d - 1
  let doe := yoe * 365 + yoe.fdiv 4 - yoe.fdiv 100 + doy
  era * 146097 + doe - 719468

/-- Time value (milliseconds) of ECMAScript `MakeDay(y, m0, d) * msPerDay`
on already-truncated integer arguments (`m0` is the month index argument,
i.e. the `m - 1` the source passes), including month/day rollover. -/
def jsDateValue (y m0 d : Int) : Int :=
  let ym := y + m0.fdiv 12
  let mn := m0.emod 12
  (daysFromCivil ym (mn + 1) 1 + (d - 1)) * 86400000

/-- Models `parseDateLoose` (weekly-marketing-report.js:277): loose `M/D/Y`
dates with 2-digit years pivoted to 2000+; anything that does not split into
three numeric parts yields `none`.  `new Date(y, m - 1, d)` truncates each
argument toward zero, maps an integer year 0..99 to 1900 + year, and yields
an invalid date (hence `null` after the `isNaN` check) beyond the
±8.64e15 ms `TimeClip` range. -/
def parseDateLoose (str : String) : Option Int :=
  if str = "" then none
  else
    match (jsSplit str (fun c => c = '/')).map jsNumber with
    | [some m, some d, some y] =>
      let y2 := if y.ltInt 100 then y.addInt 2000 else y
      let yi := y2.trunc
      let yi2 := if 0 ≤ yi ∧ yi ≤ 99 then 1900 + yi else yi
      let t := jsDateValue yi2 ((m.addInt (-1)).trunc) d.trunc
      if t.natAbs > 8640000000000000 then none else some t
    | _ => none

/-- Secondary-signal block of `classifyExpectingLead`
(weekly-marketing-report.js:364-372, the `!npi && apt` body): a literal
"not scheduled" means contacted; a date (portion before a trailing `-`
annotation) means scheduled; otherwise no signal. -/
def classifyAptSecondary (now : Int) (apt : String) : Option String :=
  if jsToLower apt = "not scheduled" then some "contacted"
  else if containsChar apt '/' || startsWithDigit apt then
    match parseDateLoose (jsTrim ((jsSplit apt (fun c => c = '-')).headD "")) with
    | some d => some (if d > now then "scheduled_upcoming" else "scheduled_past")
    | none => none
  else none

/-- Models `classifyExpectingLead` (weekly-marketing-report.js:349-377), with
the analysis time `now` (the JS `new Date()`) passed explicitly. -/
def classifyExpectingLead (now : Int) (npiScheduled aptScheduled : String) : String :=
  let npi := jsTrim npiScheduled
  let apt := jsTrim aptScheduled
  if jsToLower npi = "declined" then "declined"
  else
    match (if containsChar npi '/' || startsWithDigit npi then parseDateLoose npi else none) with
    | some d => if d > now then "scheduled_upcoming" else "scheduled_past"
    | none =>
      if containsSub (jsToLower npi) "email sent" || containsSub (jsToLower npi) "pending" then
        "pending_response"
      else if jsToLower npi = "no" then "left_message"
      else
        match (if npi = "" ∧ apt ≠ "" then classifyAptSecondary now apt else none) with
        | some r => r
        | none =>
          if npi = "" ∧ apt = "" then "not_contacted"
          else if npi ≠ "" then "other"
          else "not_contacted"

/-! ## Funnel analysis (registration + expecting-parent) -/

/-- Row of the parsed registration form (`parseFormResponses` output) as
consumed by `analyzeRegistrationFunnel`; `status` is the already-classified
status string and `timestamp` the JS-parsed submission time. -/
structure Submission where
  timestamp : Option Int
  name : String
  email : String
  phone : String
  office : String
  status : String
  deriving Repr, DecidableEq, Inhabited

/-- Models the `STAGE_LEVEL` table (weekly-marketing-report.js:411):
progression level per registration status, negative codes for exit states,
`none` for a status outside the table (JS `undefined`). -/
def STAGE_LEVEL (status : String) : Option Int :=
  if status = "not_contacted" then some 0
  else if status = "left_message" then some 1
  else if status = "contacted" then some 2
  else if status = "in_progress" then some 2
  else if status = "other" then some 2
  else if status = "pending_docs" then some 3
  else if status = "ready_to_schedule" then some 4
  else if status = "scheduled" then some 5
  else if status = "due_for_pe" then some 5
  else if status = "declined" then some (-1)
  else if status = "unable_to_reach" then some (-2)
  else if status = "on_hold" then some (-3)
  else none

/-- Filter predicate of `countAtLevel` inside `analyzeRegistrationFunnel`
(weekly-marketing-report.js:445-458): nonnegative levels compare directly;
exit states count up to their effective minimum level. -/
def reachedLevel (s : Submission) (minLevel : Int) : Bool :=
  match STAGE_LEVEL s.status with
  | none => false
  | some level =>
    if level ≥ 0 then decide (level ≥ minLevel)
    else if s.status = "declined" then decide (minLevel ≤ 2)
    else if s.status = "unable_to_reach" then decide (minLevel ≤ 1)
    else if s.status = "on_hold" then decide (minLevel ≤ 2)
    else false

/-- Models `countAtLevel`: how many records reached at least `minLevel`. -/
def countAtLevel (active : List Submission) (minLevel : Int) : Nat :=
  (active.filter (fun s => reachedLevel s minLevel)).length

/-- Row of the Expecting Parents tab (`parseExpectingParents` output);
`stage` is the already-classified stage and `timestamp` the date-parse of
the sheet timestamp used by `buildUnifiedLeadList`. -/
structure ExpectingLead where
  timestamp : Option Int
  name : String
  email : String
  phone : String
  office : String
  dueDate : String
  stage : String
  deriving Repr, DecidableEq, Inhabited

/-- Models the `EXP_LEVEL` table inside `analyzeExpectingFunnel`
(weekly-marketing-report.js:568). -/
def EXP_LEVEL (stage : String) : Option Int :=
  if stage = "not_contacted" then some 0
  else if stage = "left_message" then some 1
  else if stage = "pending_response" then some 2
  else if stage = "scheduled_upcoming" then some 3
  else if stage = "scheduled_past" then some 4
  else if stage = "declined" then some (-1)
  else if stage = "other" then some 1
  else none

/-- Filter predicate of `countExpAtLevel`
(weekly-marketing-report.js:578-586). -/
def expReachedLevel (l : ExpectingLead) (minLevel : Int) : Bool :=
  match EXP_LEVEL l.stage with
  | none => false
  | some level =>
    if level ≥ 0 then decide (level ≥ minLevel)
    else if l.stage = "declined" then decide (minLevel ≤ 1)
    else false

/-- Models `countExpAtLevel`. -/
def countExpAtLevel (leads : List ExpectingLead) (minLevel : Int) : Nat :=
  (leads.filter (fun l => expReachedLevel l minLevel)).length

/-- JS `Math.round(curr / prev * 100)` on natural counts (half-up rounding,
`floor(x + 1/2)` as `Math.round` computes for nonnegative values). -/
def pctRound (curr prev : Nat) : Nat :=
  (200 * curr + prev) / (2 * prev)

/-- Cumulative-funnel row after `analyzeRegistrationFunnel` attaches the
conversion percentages (`pctOfPrev` is absent on the first row). -/
structure FunnelRow where
  stage : String
  count : Nat
  pctOfPrev : Option Nat
  pctOfTotal : Nat
  deriving Repr, DecidableEq

/-- Percentage-attaching loop for rows after the first, threading the
previous row's count. -/
def pctRows (total : Nat) : Nat → List (String × Nat) → List FunnelRow
  | _, [] => []
  | prev, (st, c) :: rest =>
    { stage := st, count := c,
      pctOfPrev := some (if prev > 0 then pctRound c prev else 0),
      pctOfTotal := if total > 0 then pctRound c total else 0 } :: pctRows total c rest

/-- Builds the cumulative funnel rows the way `analyzeRegistrationFunnel`
does: the first row gets `pctOfTotal = 100` and no `pctOfPrev`. -/
def mkCumulativeFunnel (total : Nat) : List (String × Nat) → List FunnelRow
  | [] => []
  | (st, c) :: rest =>
    { stage := st, count := c, pctOfPrev := none, pctOfTotal := 100 } :: pctRows total c rest

/-- Biggest drop-off record (`from`/`to` renamed, `from` being reserved). -/
structure BigDrop where
  fromStage : String
  toStage : String
  rate : Nat
  lost : Int
  deriving Repr, DecidableEq

/-- Loop of the biggest-drop search: strict `<` against the running lowest
rate keeps the first occurrence on ties, starting from 100. -/
def dropLoop : String → Nat → List FunnelRow → Nat → Option BigDrop → Option BigDrop
  | _, _, [], _, acc => acc
  | pstage, pcount, r :: rest, lowest, acc =>
    let rate := r.pctOfPrev.getD 0
    if rate < lowest then
      dropLoop r.stage r.count rest rate
        (some { fromStage := pstage, toStage := r.stage, rate := rate,
                lost := (pcount : Int) - (r.count : Int) })
    else dropLoop r.stage r.count rest lowest acc

/-- Models the biggest drop-off search (weekly-marketing-report.js:519-532). -/
def findBiggestDrop : List FunnelRow → Option BigDrop
  | [] => none
  | r :: rest => dropLoop r.stage r.count rest 100 none

/-- Insertion-ordered counter bump, modelling
`counts[k] = (counts[k] || 0) + 1` on a JS object. -/
def bumpCount (m : List (String × Nat)) (k : String) : List (String × Nat) :=
  if m.any (fun p => p.1 = k) then
    m.map (fun p => if p.1 = k then (p.1, p.2 + 1) else p)
  else m ++ [(k, 1)]

/-- Counter lookup with default 0 (JS `counts[k] || 0`). -/
def lookupCount (m : List (String × Nat)) (k : String) : Nat :=
  ((m.find? (fun p => p.1 = k)).map Prod.snd).getD 0

/-- Per-office accumulator of `analyzeRegistrationFunnel` before the rates
are attached. -/
structure OfficeAcc where
  total : Nat
  contactAttempted : Nat
  connected : Nat
  docsReceived : Nat
  scheduled : Nat
  deriving Repr, DecidableEq

/-- Per-office row after `contactRate`/`scheduledRate` are attached. -/
structure OfficeRow where
  total : Nat
  contactAttempted : Nat
  connected : Nat
  docsReceived : Nat
  scheduled : Nat
  contactRate : Nat
  scheduledRate : Nat
  deriving Repr, DecidableEq

/-- Effective level used by the per-office funnel
(weekly-marketing-report.js:485-488): nonnegative levels pass through, exit
states map to their effective minimum, anything else to 0. -/
def effectiveLevel (s : Submission) : Int :=
  match STAGE_LEVEL s.status with
  | some v =>
    if v ≥ 0 then v
    else if s.status = "declined" then 2
    else if s.status = "unable_to_reach" then 1
    else if s.status = "on_hold" then 2
    else 0
  | none =>
    if s.status = "declined" then 2
    else if s.status = "unable_to_reach" then 1
    else if s.status = "on_hold" then 2
    else 0

/-- One per-office increment at a given effective level. -/
def officeBump (acc : OfficeAcc) (eff : Int) : OfficeAcc :=
  { total := acc.total + 1,
    contactAttempted := acc.contactAttempted + (if eff ≥ 1 then 1 else 0),
    connected := acc.connected + (if eff ≥ 2 then 1 else 0),
    docsReceived := acc.docsReceived + (if eff ≥ 3 then 1 else 0),
    scheduled := acc.scheduled + (if eff ≥ 5 then 1 else 0) }

/-- Insertion-ordered per-office table update. -/
def updateOffice (m : List (String × OfficeAcc)) (k : String) (eff : Int) :
    List (String × OfficeAcc) :=
  if m.any (fun p => p.1 = k) then
    m.map (fun p => if p.1 = k then (p.1, officeBump p.2 eff) else p)
  else m ++ [(k, officeBump ⟨0, 0, 0, 0, 0⟩ eff)]

/-- Attaches the per-office conversion rates
(weekly-marketing-report.js:495-499). -/
def finishOffice (a : OfficeAcc) : OfficeRow :=
  { total := a.total, contactAttempted := a.contactAttempted,
    connected := a.connected, docsReceived := a.docsReceived,
    scheduled := a.scheduled,
    contactRate := if a.total > 0 then pctRound a.contactAttempted a.total else 0,
    scheduledRate := if a.total > 0 then pctRound a.scheduled a.total else 0 }

/-- JS `sub.office || 'Unknown'`. -/
def officeKey (s : Submission) : String :=
  if s.office = "" then "Unknown" else s.office

/-- Stuck-record predicate: exact status and submission older than `days`
days relative to the analysis time (weekly-marketing-report.js:503-517). -/
def isStuck (now : Int) (days : Nat) (status : String) (s : Submission) : Bool :=
  if s.status = status then
    match s.timestamp with
    | some d => decide (now - d > (days : Int) * 86400000)
    | none => false
  else false

/-- Exit-state counts of `analyzeRegistrationFunnel`. -/
structure ExitCounts where
  declined : Nat
  unableToReach : Nat
  onHold : Nat
  total : Nat
  deriving Repr, DecidableEq

/-- Stuck counts of `analyzeRegistrationFunnel`. -/
structure StuckCounts where
  notContacted14d : Nat
  leftMessage21d : Nat
  pendingDocs30d : Nat
  deriving Repr, DecidableEq

/-- Full result of `analyzeRegistrationFunnel`. -/
structure RegFunnelResult where
  total : Nat
  cumulativeFunnel : List FunnelRow
  currentCounts : List (String × Nat)
  exits : ExitCounts
  stuck : StuckCounts
  biggestDrop : Option BigDrop
  byOffice : List (String × OfficeRow)
  deriving Repr, DecidableEq

/-- Models `analyzeRegistrationFunnel` (weekly-marketing-report.js:427-543),
with the analysis time `now` passed explicitly.  Every output is computed
over `active`, the submissions whose classified status is not `test`. -/
def analyzeRegistrationFunnel (now : Int) (submissions : List Submission) :
    RegFunnelResult :=
  let active := submissions.filter (fun s => s.status ≠ "test")
  let total := active.length
  let currentCounts := active.foldl (fun m s => bumpCount m s.status) []
  let declined := lookupCount currentCounts "declined"
  let unableToReach := lookupCount currentCounts "unable_to_reach"
  let onHold := lookupCount currentCounts "on_hold"
  let counts := [("Submitted", total),
                 ("Contact Attempted", countAtLevel active 1),
                 ("Connected", countAtLevel active 2),
                 ("Docs Received", countAtLevel active 3),
                 ("Ready to Schedule", countAtLevel active 4),
                 ("Scheduled", countAtLevel active 5)]
  let cumulativeFunnel := mkCumulativeFunnel total counts
  { total := total,
    cumulativeFunnel := cumulativeFunnel,
    currentCounts := currentCounts,
    exits := { declined := declined, unableToReach := unableToReach,
               onHold := onHold, total := declined + unableToReach + onHold },
    stuck := { notContacted14d := (active.filter (isStuck now 14 "not_contacted")).length,
               leftMessage21d := (active.filter (isStuck now 21 "left_message")).length,
               pendingDocs30d := (active.filter (isStuck now 30 "pending_docs")).length },
    biggestDrop := findBiggestDrop cumulativeFunnel,
    byOffice := (active.foldl
        (fun m s => updateOffice m (officeKey s) (effectiveLevel s)) []).map
      (fun p => (p.1, finishOffice p.2)) }

/-! ## Unified lead identity resolution (`buildUnifiedLeadList`) -/

/-- The `ATTRIBUTION_PRIORITY` array (weekly-marketing-report.js:818): most
specific channel first, `unknown` last. -/
def ATTRIBUTION_PRIORITY : List String :=
  ["facebook_ad", "instagram", "google_search", "email_marketing",
   "employee_referral", "word_of_mouth", "website", "class_only", "unknown"]

/-- One deduplicated person identity (the `UnifiedLead` object literal of
`getOrCreate`, plus the `registrationTimestamp` field pass 3 adds). -/
structure UnifiedLead where
  phone : String
  email : String
  name : String
  sources : List String
  attribution : String
  referralDetail : String
  firstSeen : Option Int
  office : String
  classesAttended : List String
  registrationStatus : String
  expectingStage : String
  registrationTimestamp : Option Int
  deriving Repr, DecidableEq, Inhabited

/-- Facebook lead row (`fetchFBLeads` output): normalized phone, lowercased
email, ISO date prefix parsed to a time value. -/
structure FbLead where
  date : Option Int
  phone : String
  email : String
  deriving Repr, DecidableEq

/-- Deduplicated class-RSVP entry (`fetchAllClassRSVPs().unique`), as
consumed by pass 2 of `buildUnifiedLeadList`; `timestamp` is the JS-parse of
the sheet timestamp. -/
structure ClassRsvp where
  name : String
  phone : String
  email : String
  referralRaw : String
  referralSource : String
  classesAttended : List String
  timestamp : Option Int
  deriving Repr, DecidableEq

/-- Registration-form row (`parseFormResponses` output) as consumed by
pass 3 of `buildUnifiedLeadList`. -/
structure FormRec where
  timestamp : Option Int
  name : String
  email : String
  phone : String
  office : String
  status : String
  deriving Repr, DecidableEq

/-- State of `buildUnifiedLeadList`: the lead array plus the two dedup-key
maps, each mapping a key to the index of its lead. -/
structure BuildState where
  leads : List UnifiedLead
  byPhone : List (String × Nat)
  byEmail : List (String × Nat)
  deriving Repr, DecidableEq, Inhabited

/-- JS `Map.get` on an insertion-ordered association list. -/
def lookupIdx (m : List (String × Nat)) (k : String) : Option Nat :=
  (m.find? (fun p => p.1 = k)).map Prod.snd

/-- `const normPhone = phone && phone.length === 10 ? phone : null`. -/
def normPhoneKey (phone : String) : Option String :=
  if phone ≠ "" ∧ phone.length = 10 then some phone else none

/-- `const normEmail = email || null`. -/
def normEmailKey (email : String) : Option String :=
  if email ≠ "" then some email else none

/-- Lookup step of `getOrCreate` (weekly-marketing-report.js:833-835):
phone key first, else email key. -/
def findExisting (st : BuildState) (phone email : String) : Option Nat :=
  match normPhoneKey phone with
  | some p =>
    match lookupIdx st.byPhone p with
    | some i => some i
    | none => (normEmailKey email).bind (lookupIdx st.byEmail)
  | none => (normEmailKey email).bind (lookupIdx st.byEmail)

/-- Fresh entry created by `getOrCreate` (weekly-marketing-report.js:839-851). -/
def newLead (phone email name : String) : UnifiedLead :=
  { phone := (normPhoneKey phone).getD "", email := (normEmailKey email).getD "",
    name := name, sources := [], attribution := "unknown", referralDetail := "",
    firstSeen := none, office := "", classesAttended := [],
    registrationStatus := "", expectingStage := "", registrationTimestamp := none }

/-- Models `getOrCreate`: return the index of the existing entry for the
keys, or create, index and return a fresh one. -/
def getOrCreate (st : BuildState) (phone email name : String) : BuildState × Nat :=
  match findExisting st phone email with
  | some i => (st, i)
  | none =>
    let i := st.leads.length
    ({ leads := st.leads ++ [newLead phone email name],
       byPhone := match normPhoneKey phone with
                  | some p => st.byPhone ++ [(p, i)]
                  | none => st.byPhone,
       byEmail := match normEmailKey email with
                  | some em => st.byEmail ++ [(em, i)]
                  | none => st.byEmail }, i)

/-- In-place mutation of the entry `getOrCreate` returned, as each pass of
`buildUnifiedLeadList` performs. -/
def applyRecord (st : BuildState) (phone email name : String)
    (u : UnifiedLead → UnifiedLead) : BuildState :=
  let r := getOrCreate st phone email name
  { r.1 with leads := r.1.leads.set r.2 (u (r.1.leads.getD r.2 default)) }

/-- JS `if (!list.includes(x)) list.push(x)`. -/
def pushDistinct (l : List String) (x : String) : List String :=
  if x ∈ l then l else l ++ [x]

/-- JS `if (!current && candidate) current = candidate` (first non-empty
value wins). -/
def fillIfEmpty (current candidate : String) : String :=
  if current = "" ∧ candidate ≠ "" then candidate else current

/-- Models `updateAttribution` (weekly-marketing-report.js:858-866): record
the source tag, and replace the attribution only when the new channel ranks
strictly higher (smaller `ATTRIBUTION_PRIORITY` index). -/
def updateAttribution (e : UnifiedLead) (source referralDetail : String) : UnifiedLead :=
  let e1 := { e with sources := pushDistinct e.sources source }
  let currentPri := jsIndexOf ATTRIBUTION_PRIORITY e1.attribution
  let newPri := jsIndexOf ATTRIBUTION_PRIORITY source
  if 0 ≤ newPri ∧ (currentPri < 0 ∨ newPri < currentPri) then
    { e1 with attribution := source,
              referralDetail := if referralDetail ≠ "" then referralDetail
                                else e1.referralDetail }
  else e1

/-- Models `updateFirstSeen` (weekly-marketing-report.js:868-873) on the
already-parsed date (`none` = missing or unparseable). -/
def updFirstSeen (e : UnifiedLead) (d : Option Int) : UnifiedLead :=
  match d with
  | none => e
  | some v =>
    match e.firstSeen with
    | none => { e with firstSeen := some v }
    | some f => if v < f then { e with firstSeen := some v } else e

/-- Entry update of pass 1 (Facebook leads, weekly-marketing-report.js:876-880). -/
def fbUpdate (fb : FbLead) (e : UnifiedLead) : UnifiedLead :=
  updFirstSeen (updateAttribution e "facebook_ad" "Facebook Lead Ad") fb.date

/-- Entry update of pass 2 (class RSVPs, weekly-marketing-report.js:883-895). -/
def classUpdate (r : ClassRsvp) (e : UnifiedLead) : UnifiedLead :=
  let e1 := { e with name := fillIfEmpty e.name r.name }
  let classAttribution := if r.referralSource ≠ "unknown" then r.referralSource
                          else "class_only"
  let e2 := updateAttribution e1 classAttribution r.referralRaw
  let e3 := updFirstSeen e2 r.timestamp
  { e3 with classesAttended := r.classesAttended.foldl pushDistinct e3.classesAttended }

/-- Entry update of pass 3 (registration form,
weekly-marketing-report.js:898-908); note `registrationStatus` and
`registrationTimestamp` are assigned unconditionally. -/
def formUpdate (f : FormRec) (e : UnifiedLead) : UnifiedLead :=
  let e1 := { e with name := fillIfEmpty e.name f.name }
  let e2 := { e1 with sources := pushDistinct e1.sources "registration_form" }
  let e3 := updateAttribution e2 "website" "Registration Form"
  let e4 := updFirstSeen e3 f.timestamp
  let e5 := { e4 with office := fillIfEmpty e4.office f.office }
  { e5 with registrationStatus := f.status, registrationTimestamp := f.timestamp }

/-- Entry update of pass 4 (expecting-parents tracker,
weekly-marketing-report.js:911-919); the tracker never touches attribution,
and `expectingStage` is assigned unconditionally. -/
def expUpdate (x : ExpectingLead) (e : UnifiedLead) : UnifiedLead :=
  let e1 := { e with name := fillIfEmpty e.name x.name }
  let e2 := { e1 with sources := pushDistinct e1.sources "expecting_tracker" }
  let e3 := updFirstSeen e2 x.timestamp
  let e4 := { e3 with office := fillIfEmpty e3.office x.office }
  { e4 with expectingStage := x.stage }

/-- Pass 1 step. -/
def applyFb (st : BuildState) (fb : FbLead) : BuildState :=
  applyRecord st fb.phone fb.email "" (fbUpdate fb)

/-- Pass 2 step. -/
def applyClass (st : BuildState) (r : ClassRsvp) : BuildState :=
  applyRecord st r.phone r.email r.name (classUpdate r)

/-- Pass 3 step. -/
def applyForm (st : BuildState) (f : FormRec) : BuildState :=
  applyRecord st f.phone f.email f.name (formUpdate f)

/-- Pass 4 step. -/
def applyExp (st : BuildState) (x : ExpectingLead) : BuildState :=
  applyRecord st x.phone x.email x.name (expUpdate x)

/-- Models `buildUnifiedLeadList` (weekly-marketing-report.js:823-922): fold
the four source batches, in their fixed order, into one `UnifiedLead` per
distinct phone/email identity.  (The second argument is the `unique` list of
the class-RSVP fetch.) -/
def buildUnifiedLeadList (fbLeads : List FbLead) (classUnique : List ClassRsvp)
    (formResponses : List FormRec) (expectingLeads : List ExpectingLead) :
    List UnifiedLead :=
  let st0 : BuildState := ⟨[], [], []⟩
  let st1 := fbLeads.foldl applyFb st0
  let st2 := classUnique.foldl applyClass st1
  let st3 := formResponses.foldl applyForm st2
  let st4 := expectingLeads.foldl applyExp st3
  st4.leads

/-- Observational state of `buildUnifiedLeadList`'s dedup decisions: the two
key maps and the number of leads (entry contents do not influence lookups). -/
def SameShape (s1 s2 : BuildState) : Prop :=
  s1.byPhone = s2.byPhone ∧ s1.byEmail = s2.byEmail ∧
    s1.leads.length = s2.leads.length

/-- Cell access of the row loop: JS `col >= 0 ? (row[col] || '') : ''`. -/
def cellAt (row : List String) (c : Int) : String :=
  if c ≥ 0 then (row.get? c.toNat).getD "" else ""

/-- One row of the `newPatientsForMatching` query: a patient's first-ever
visit with up to five raw phone fields, one (possibly multi-valued) email
field and patient/billing-contact name variants. -/
structure EhrPatient where
  patient_id : Nat
  office : String
  first_visit_date : Option Int
  phone1 : String
  phone2 : String
  phone3 : String
  phone4 : String
  contact_phone : String
  contact_email : String
  contact_last_name : String
  contact_first_name : String
  patient_last_name : String
  patient_first_name : String
  deriving Repr, DecidableEq

/-- Bucket push on an insertion-ordered index
(`if (!idx.has(k)) idx.set(k, []); idx.get(k).push(p)`). -/
def pushBucket (m : List (String × List EhrPatient)) (k : String)
    (p : EhrPatient) : List (String × List EhrPatient) :=
  if m.any (fun q => q.1 = k) then
    m.map (fun q => if q.1 = k then (q.1, q.2 ++ [p]) else q)
  else m ++ [(k, [p])]

/-- JS `Map.get` on a bucket index. -/
def lookupBucket (m : List (String × List EhrPatient)) (k : String) :
    Option (List EhrPatient) :=
  (m.find? (fun q => q.1 = k)).map Prod.snd

/-- Phone keys of one EHR row (weekly-marketing-report.js:932-934): last 10
characters of each phone field, kept only when exactly 10 remain. -/
def patientPhoneKeys (p : EhrPatient) : List String :=
  (([p.phone1, p.phone2, p.phone3, p.phone4, p.contact_phone].map
      (fun ph => if ph = "" then "" else takeLast 10 ph)).filter
    (fun ph => ph.length = 10))

/-- Surname keys of one EHR row (weekly-marketing-report.js:946-951):
contact and patient last names, length > 1 only. -/
def patientNameKeys (p : EhrPatient) : List String :=
  [p.contact_last_name, p.patient_last_name].filter
    (fun ln => ln ≠ "" ∧ ln.length > 1)

/-- Phone index over the EHR rows, in insertion order. -/
def buildPhoneIndex (ps : List EhrPatient) : List (String × List EhrPatient) :=
  ps.foldl (fun m p => (patientPhoneKeys p).foldl (fun m2 k => pushBucket m2 k p) m) []

/-- Email index over the EHR rows (split multi-email fields). -/
def buildEmailIndex (ps : List EhrPatient) : List (String × List EhrPatient) :=
  ps.foldl (fun m p => (splitEmails p.contact_email).foldl
    (fun m2 k => pushBucket m2 k p) m) []

/-- Surname index over the EHR rows. -/
def buildNameIndex (ps : List EhrPatient) : List (String × List EhrPatient) :=
  ps.foldl (fun m p => (patientNameKeys p).foldl (fun m2 k => pushBucket m2 k p) m) []

/-- First whitespace-separated token of a trimmed name
(JS `name.trim().split(/\s+/)[0]`). -/
def firstToken (s : String) : String :=
  ((jsSplit (jsTrim s) Char.isWhitespace).filter (fun w => w ≠ "")).headD ""

/-- The tiered lookup of `matchLeadsToEHR`
(weekly-marketing-report.js:977-1017) for one `UnifiedLead`: phone tier,
then email tier, then surname fallback with first-initial validation and the
unique-candidate escape hatch.  The lookup reads only the three prebuilt
indices — the claimed-id set plays no part in it. -/
def resolveLead (phoneIdx emailIdx nameIdx : List (String × List EhrPatient))
    (lead : UnifiedLead) : Option EhrPatient :=
  let byPhone : Option EhrPatient :=
    if lead.phone ≠ "" ∧ lead.phone.length = 10 then
      (lookupBucket phoneIdx lead.phone).bind List.head?
    else none
  match byPhone with
  | some p => some p
  | none =>
    let byEmail : Option EhrPatient :=
      if lead.email ≠ "" then
        (splitEmails lead.email).findSome?
          (fun em => (lookupBucket emailIdx em).bind List.head?)
      else none
    match byEmail with
    | some p => some p
    | none =>
      if lead.name ≠ "" then
        let leadLast := extractLastName lead.name
        let leadFirst := jsToLower (firstToken lead.name)
        if leadLast ≠ "" ∧ leadLast.length > 1 then
          match lookupBucket nameIdx leadLast with
          | none => none
          | some candidates =>
            let initialMatch : Option EhrPatient :=
              if leadFirst ≠ "" then
                candidates.find? (fun c =>
                  let ehrFirst := if c.contact_first_name ≠ "" then
                    c.contact_first_name else c.patient_first_name
                  decide (ehrFirst ≠ "" ∧
                    ehrFirst.toList.head? = leadFirst.toList.head?))
              else none
            match initialMatch with
            | some p => some p
            | none =>
              if ((candidates.map (fun c => c.patient_id)).dedup).length = 1 then
                candidates.head?
              else none
        else none
      else none

/-- The tiered lookup against a patient row set, with the three indices
built exactly as `matchLeadsToEHR` prebuilds them. -/
def resolveAgainst (ehrPatients : List EhrPatient) (lead : UnifiedLead) :
    Option EhrPatient :=
  resolveLead (buildPhoneIndex ehrPatients) (buildEmailIndex ehrPatients)
    (buildNameIndex ehrPatients) lead

/-- Models the evolution of `matchedPatientIds` over the lead loop of
`matchLeadsToEHR` (weekly-marketing-report.js:959,1022-1031): a resolved
patient id is claimed only if not already claimed; exactly those claim
events are counted as matched in the aggregate statistics
(`bySource[src].matched`, `totalMatchedToEHR`). -/
def matchedPatientIds (ehrPatients : List EhrPatient)
    (unifiedLeads : List UnifiedLead) : List Nat :=
  unifiedLeads.foldl
    (fun claimed lead =>
      match resolveAgainst ehrPatients lead with
      | some p => if p.patient_id ∈ claimed then claimed else claimed ++ [p.patient_id]
      | none => claimed) []

/-! ## Theorems settling the specification claims -/

theorem filter_digits_all (l : List Char) :
    (l.filter Char.isDigit).all Char.isDigit = true := by
  simp only [List.all_eq_true]
  exact fun a ha => (List.mem_filter.mp ha).2

theorem drop_all {p : Char → Bool} {l : List Char} (h : l.all p = true) (n : Nat) :
    (l.drop n).all p = true := by
  simp only [List.all_eq_true] at h ⊢
  exact fun a ha => h a (List.mem_of_mem_drop ha)

/-- C9 (amended): `normalizePhone` strips every non-digit character and, when
at least 10 digits remain, keeps exactly the last 10 of them (a shorter digit
string is kept as-is); on the spec's scenario input `"(908) 555-0134 ext 2"`
the extension digit makes 11 digits, so the result is `"0855501342"`, not
`"9085550134"`. -/
theorem normalizePhone_last_ten_digits :
    (∀ raw : String,
      (normalizePhone raw).toList.all Char.isDigit = true ∧
      ((raw.toList.filter Char.isDigit).length ≥ 10 →
        (normalizePhone raw).toList =
          (raw.toList.filter Char.isDigit).drop
            ((raw.toList.filter Char.isDigit).length - 10)) ∧
      ((raw.toList.filter Char.isDigit).length < 10 →
        (normalizePhone raw).toList = raw.toList.filter Char.isDigit)) ∧
    normalizePhone "(908) 555-0134 ext 2" = "0855501342" := by
  constructor
  · intro raw
    by_cases h0 : raw = ""
    · subst h0
      refine ⟨by decide, ?_, fun _ => by decide⟩
      intro h
      simp at h
    · have hkey : normalizePhone raw =
          if (raw.toList.filter Char.isDigit).length ≥ 10 then
            String.mk ((raw.toList.filter Char.isDigit).drop
              ((raw.toList.filter Char.isDigit).length - 10))
          else String.mk (raw.toList.filter Char.isDigit) := by
        simp only [normalizePhone, h0, if_false, takeLast]
        rfl
      by_cases hlen : (raw.toList.filter Char.isDigit).length ≥ 10
      · rw [hkey, if_pos hlen]
        refine ⟨drop_all (filter_digits_all _) _, fun _ => rfl, fun hc => absurd hlen (by omega)⟩
      · rw [hkey, if_neg hlen]
        exact ⟨filter_digits_all _, fun hc => absurd hc hlen, fun _ => rfl⟩
  · decide

/-- Closed witness for `normalizePhone_last_ten_digits`: a phone with a
country code has 11 digits and keeps the last 10. -/
theorem normalizePhone_last_ten_digits_witness :
    ("1 908 555 0134".toList.filter Char.isDigit).length ≥ 10 ∧
    (normalizePhone "1 908 555 0134").toList =
      ("1 908 555 0134".toList.filter Char.isDigit).drop
        (("1 908 555 0134".toList.filter Char.isDigit).length - 10) :=
  ⟨by decide, (normalizePhone_last_ten_digits.1 "1 908 555 0134").2.1 (by decide)⟩

/-- C9 (counterexample): the spec's scenario asserts the result
`"9085550134"` for this input, but the code keeps the last 10 of the 11
digits (the `ext 2` digit included), giving `"0855501342"`. -/
theorem normalizePhone_scenario_counterexample :
    normalizePhone "(908) 555-0134 ext 2" = "0855501342" ∧
    ("0855501342" : String) ≠ "9085550134" :=
  ⟨by decide, by decide⟩

theorem classifyExpecting_blank_npi (now : Int) (npiS aptS : String)
    (h : jsTrim npiS = "") :
    classifyExpectingLead now npiS aptS =
      (match (if jsTrim aptS = "" then none
              else classifyAptSecondary now (jsTrim aptS)) with
       | some r => r
       | none => "not_contacted") := by
  by_cases ha : jsTrim aptS = "" <;>
    simp only [classifyExpectingLead, h, ha, ne_eq, not_true_eq_false, and_false,
      not_false_eq_true, and_true, if_true, if_false, ite_self] <;>
    rfl

theorem classifyAptSecondary_values (now : Int) (t r : String)
    (h : classifyAptSecondary now t = some r) :
    r = "contacted" ∨ r = "scheduled_upcoming" ∨ r = "scheduled_past" := by
  unfold classifyAptSecondary at h
  split at h
  · exact Or.inl (Option.some.inj h).symm
  · split at h
    · cases hp : parseDateLoose (jsTrim ((jsSplit t (fun c => c = '-')).headD "")) with
      | none => rw [hp] at h; exact absurd h (by simp)
      | some d =>
        rw [hp] at h
        have hr := (Option.some.inj h).symm
        by_cases hd : d > now
        · rw [if_pos hd] at hr; exact Or.inr (Or.inl hr)
        · rw [if_neg hd] at hr; exact Or.inr (Or.inr hr)
    · exact absurd h (by simp)

/-- C8 (amended): when the NPI field is blank, the secondary field decides:
"not scheduled" (case-insensitively) yields contacted; a secondary value
passing the date guard (contains `/` or starts with a digit) whose portion
before a trailing `-` annotation parses as a date yields scheduled_upcoming
when after the analysis time and scheduled_past otherwise (the spec scenario
`"01/20/2026- WRN"` included); both fields blank yields not_contacted; and
every other secondary value — guard failed, or guard passed but the date
parse failed — also yields not_contacted: `other` is produced only when the
NPI field is nonblank, never in the blank-NPI fallback. -/
theorem classifyExpecting_blank_npi_spec :
    (∀ (now : Int) (apt : String),
      jsToLower (jsTrim apt) = "not scheduled" →
      classifyExpectingLead now "" apt = "contacted") ∧
    (∀ (now d : Int) (apt : String),
      jsToLower (jsTrim apt) ≠ "not scheduled" →
      (containsChar (jsTrim apt) '/' || startsWithDigit (jsTrim apt)) = true →
      parseDateLoose
          (jsTrim ((jsSplit (jsTrim apt) (fun c => c = '-')).headD "")) = some d →
      classifyExpectingLead now "" apt =
        (if d > now then "scheduled_upcoming" else "scheduled_past")) ∧
    (∀ now d : Int,
      parseDateLoose "01/20/2026" = some d →
      classifyExpectingLead now "" "01/20/2026- WRN" =
        (if d > now then "scheduled_upcoming" else "scheduled_past")) ∧
    (∀ now : Int, classifyExpectingLead now "" "" = "not_contacted") ∧
    (∀ (now : Int) (apt : String),
      jsTrim apt ≠ "" →
      jsToLower (jsTrim apt) ≠ "not scheduled" →
      ((containsChar (jsTrim apt) '/' || startsWithDigit (jsTrim apt)) = false ∨
        parseDateLoose
          (jsTrim ((jsSplit (jsTrim apt) (fun c => c = '-')).headD "")) = none) →
      classifyExpectingLead now "" apt = "not_contacted") ∧
    (∀ (now : Int) (npi apt : String),
      classifyExpectingLead now npi apt = "other" → jsTrim npi ≠ "") := by
  refine ⟨?_, ?_, ?_, ?_, ?_, ?_⟩
  · intro now apt h
    have hne : jsTrim apt ≠ "" := by
      intro he
      rw [he] at h
      exact absurd h (by decide)
    rw [classifyExpecting_blank_npi now "" apt rfl]
    simp [hne, classifyAptSecondary, h]
  · intro now d apt h2 hguard hparse
    have hne : jsTrim apt ≠ "" := by
      intro he0
      rw [he0] at hguard
      exact absurd hguard (by decide)
    rw [classifyExpecting_blank_npi now "" apt rfl, if_neg hne]
    have hsec : classifyAptSecondary now (jsTrim apt) =
        some (if d > now then "scheduled_upcoming" else "scheduled_past") := by
      unfold classifyAptSecondary
      rw [if_neg h2, if_pos hguard, hparse]
    rw [hsec]
  · intro now d hd
    have hv : parseDateLoose "01/20/2026" = some 1768867200000 := by decide
    rw [hv] at hd
    cases hd
    rfl
  · intro now
    rfl
  · intro now apt h1 h2 h3
    rw [classifyExpecting_blank_npi now "" apt rfl, if_neg h1]
    have hsec : classifyAptSecondary now (jsTrim apt) = none := by
      unfold classifyAptSecondary
      rw [if_neg h2]
      rcases h3 with hg | hpn
      · rw [if_neg (by simp [hg])]
      · by_cases hgg : (containsChar (jsTrim apt) '/' ||
            startsWithDigit (jsTrim apt)) = true
        · rw [if_pos hgg, hpn]
        · rw [if_neg hgg]
    rw [hsec]
  · intro now npi apt hres
    intro hb
    rw [classifyExpecting_blank_npi now npi apt hb] at hres
    by_cases ha : jsTrim apt = ""
    · rw [if_pos ha] at hres
      exact absurd hres (by decide)
    · rw [if_neg ha] at hres
      cases hc : classifyAptSecondary now (jsTrim apt) with
      | none => rw [hc] at hres; exact absurd hres (by decide)
      | some r =>
        rw [hc] at hres
        rcases classifyAptSecondary_values now (jsTrim apt) r hc with h | h | h <;>
          rw [h] at hres <;> exact absurd hres (by decide)

/-- Closed witness for `classifyExpecting_blank_npi_spec`: the spec scenario
(blank NPI, `"01/20/2026- WRN"`, via the general date rule and via the
scenario conjunct), an unclassified secondary value, and a date-looking
secondary value whose parse fails. -/
theorem classifyExpecting_blank_npi_spec_witness :
    classifyExpectingLead 0 "" "Not Scheduled" = "contacted" ∧
    classifyExpectingLead 0 "" "01/20/2026- WRN" =
      (if (1768867200000 : Int) > 0 then "scheduled_upcoming" else "scheduled_past") ∧
    classifyExpectingLead 0 "" "left vm" = "not_contacted" ∧
    classifyExpectingLead 0 "" "2nd try, no answer" = "not_contacted" :=
  ⟨classifyExpecting_blank_npi_spec.1 0 "Not Scheduled" (by decide),
   classifyExpecting_blank_npi_spec.2.1 0 1768867200000 "01/20/2026- WRN"
     (by decide) (by decide) (by decide),
   classifyExpecting_blank_npi_spec.2.2.2.2.1 0 "left vm" (by decide) (by decide)
     (Or.inl (by decide)),
   classifyExpecting_blank_npi_spec.2.2.2.2.1 0 "2nd try, no answer" (by decide)
     (by decide) (Or.inr (by decide))⟩

/-- C8 (counterexample): the claim says a recognized-but-unclassified input
with blank NPI yields `other`, but the code yields `not_contacted` (`other`
requires a nonblank NPI field). -/
theorem classifyExpecting_unclassified_counterexample :
    classifyExpectingLead 0 "" "maybe" = "not_contacted" ∧
    classifyExpectingLead 0 "" "maybe" ≠ "other" :=
  ⟨by decide, by decide⟩

theorem reachedLevel_antitone (s : Submission) (L : Int)
    (h : reachedLevel s (L + 1) = true) : reachedLevel s L = true := by
  unfold reachedLevel at h ⊢
  cases hS : STAGE_LEVEL s.status with
  | none => rw [hS] at h; exact absurd h (by simp)
  | some v =>
    rw [hS] at h
    dsimp only [] at h ⊢
    by_cases h0 : v ≥ 0
    · rw [if_pos h0] at h ⊢
      simp only [decide_eq_true_eq] at h ⊢
      omega
    · rw [if_neg h0] at h ⊢
      by_cases hd : s.status = "declined"
      · rw [if_pos hd] at h ⊢
        simp only [decide_eq_true_eq] at h ⊢
        omega
      · rw [if_neg hd] at h ⊢
        by_cases hu : s.status = "unable_to_reach"
        · rw [if_pos hu] at h ⊢
          simp only [decide_eq_true_eq] at h ⊢
          omega
        · rw [if_neg hu] at h ⊢
          by_cases ho : s.status = "on_hold"
          · rw [if_pos ho] at h ⊢
            simp only [decide_eq_true_eq] at h ⊢
            omega
          · rw [if_neg ho] at h
            exact absurd h (by simp)

theorem expReachedLevel_antitone (l : ExpectingLead) (L : Int)
    (h : expReachedLevel l (L + 1) = true) : expReachedLevel l L = true := by
  unfold expReachedLevel at h ⊢
  cases hS : EXP_LEVEL l.stage with
  | none => rw [hS] at h; exact absurd h (by simp)
  | some v =>
    rw [hS] at h
    dsimp only [] at h ⊢
    by_cases h0 : v ≥ 0
    · rw [if_pos h0] at h ⊢
      simp only [decide_eq_true_eq] at h ⊢
      omega
    · rw [if_neg h0] at h ⊢
      by_cases hd : l.stage = "declined"
      · rw [if_pos hd] at h ⊢
        simp only [decide_eq_true_eq] at h ⊢
        omega
      · rw [if_neg hd] at h
        exact absurd h (by simp)

/-- C3: for both funnels the cumulative level counts are monotonically
non-increasing — every record counted at level `L + 1` (including exit
states, counted up to their effective minimum level) is also counted at
level `L`. -/
theorem cumulative_funnel_monotone :
    ∀ (subs : List Submission) (leads : List ExpectingLead) (L : Int),
      countAtLevel subs (L + 1) ≤ countAtLevel subs L ∧
      countExpAtLevel leads (L + 1) ≤ countExpAtLevel leads L := by
  intro subs leads L
  constructor
  · exact (List.monotone_filter_right subs
      (fun s hs => reachedLevel_antitone s L hs)).length_le
  · exact (List.monotone_filter_right leads
      (fun l hl => expReachedLevel_antitone l L hl)).length_le

/-- C7: exit states count at every level up to their effective minimum and
no further — `declined` (effective level 2) is counted by `countAtLevel 1`
and `countAtLevel 2` but not `countAtLevel 3`; `unable_to_reach` has
effective level 1 and `on_hold` effective level 2. -/
theorem exit_state_leveling :
    ∀ (s : Submission) (L : Int),
      (reachedLevel { s with status := "declined" } L = decide (L ≤ 2)) ∧
      (reachedLevel { s with status := "unable_to_reach" } L = decide (L ≤ 1)) ∧
      (reachedLevel { s with status := "on_hold" } L = decide (L ≤ 2)) ∧
      (countAtLevel [{ s with status := "declined" }] 1 = 1) ∧
      (countAtLevel [{ s with status := "declined" }] 2 = 1) ∧
      (countAtLevel [{ s with status := "declined" }] 3 = 0) := by
  intro s L
  refine ⟨rfl, rfl, rfl, ?_, ?_, ?_⟩ <;> rfl

/-- C10: `analyzeRegistrationFunnel` computes every one of its outputs
(total, cumulative level counts, current-state counts, per-office breakdown,
stuck counts, exits, biggest drop) from `active`, the test-free restriction
of its input, so the analysis of any record set equals the analysis of that
record set with all `test` records removed. -/
theorem test_records_excluded :
    ∀ (now : Int) (subs : List Submission),
      analyzeRegistrationFunnel now subs =
        analyzeRegistrationFunnel now (subs.filter (fun s => s.status ≠ "test")) := by
  intro now subs
  have hf : (subs.filter (fun s => s.status ≠ "test")).filter
        (fun s => s.status ≠ "test") =
      subs.filter (fun s => s.status ≠ "test") := by
    apply List.filter_eq_self.mpr
    intro a ha
    exact (List.mem_filter.mp ha).2
  simp only [analyzeRegistrationFunnel, hf]

/-- C2: `updateAttribution` is monotone in channel rank.  When the current
attribution is a channel ranked above `unknown` (a smaller
`ATTRIBUTION_PRIORITY` index than `unknown`) and a later record carries a
channel that is also in the priority list, then an equal- or lower-ranked
(greater-or-equal index) channel leaves the attribution unchanged, while a
strictly higher-ranked (smaller index) channel replaces it. -/
theorem attribution_monotone (e : UnifiedLead) (source detail : String)
    (hcur : 0 ≤ jsIndexOf ATTRIBUTION_PRIORITY e.attribution)
    (habove : jsIndexOf ATTRIBUTION_PRIORITY e.attribution <
      jsIndexOf ATTRIBUTION_PRIORITY "unknown")
    (hnew : 0 ≤ jsIndexOf ATTRIBUTION_PRIORITY source) :
    (jsIndexOf ATTRIBUTION_PRIORITY e.attribution ≤
        jsIndexOf ATTRIBUTION_PRIORITY source →
      (updateAttribution e source detail).attribution = e.attribution) ∧
    (jsIndexOf ATTRIBUTION_PRIORITY source <
        jsIndexOf ATTRIBUTION_PRIORITY e.attribution →
      (updateAttribution e source detail).attribution = source) := by
  unfold updateAttribution
  dsimp only
  constructor
  · intro hle
    rw [if_neg]
    intro hand
    rcases hand.2 with hlt | hlt
    · omega
    · omega
  · intro hlt
    rw [if_pos]
    exact ⟨hnew, Or.inr hlt⟩

/-- Closed witness for `attribution_monotone`: a word-of-mouth lead is
upgraded by a Facebook-ad record and not downgraded by a website record. -/
theorem attribution_monotone_witness :
    (updateAttribution
      { phone := "", email := "", name := "", sources := [],
        attribution := "word_of_mouth", referralDetail := "", firstSeen := none,
        office := "", classesAttended := [], registrationStatus := "",
        expectingStage := "", registrationTimestamp := none }
      "facebook_ad" "Facebook Lead Ad").attribution = "facebook_ad" ∧
    (updateAttribution
      { phone := "", email := "", name := "", sources := [],
        attribution := "word_of_mouth", referralDetail := "", firstSeen := none,
        office := "", classesAttended := [], registrationStatus := "",
        expectingStage := "", registrationTimestamp := none }
      "website" "Registration Form").attribution = "word_of_mouth" :=
  ⟨(attribution_monotone _ "facebook_ad" "Facebook Lead Ad"
      (by decide) (by decide) (by decide)).2 (by decide),
   (attribution_monotone _ "website" "Registration Form"
      (by decide) (by decide) (by decide)).1 (by decide)⟩

theorem findExisting_congr {s1 s2 : BuildState} (hp : s1.byPhone = s2.byPhone)
    (he : s1.byEmail = s2.byEmail) (phone email : String) :
    findExisting s1 phone email = findExisting s2 phone email := by
  unfold findExisting
  rw [hp, he]

theorem applyRecord_byPhone (st : BuildState) (p e n : String)
    (u : UnifiedLead → UnifiedLead) :
    (applyRecord st p e n u).byPhone =
      (match findExisting st p e with
       | some _ => st.byPhone
       | none =>
         match normPhoneKey p with
         | some k => st.byPhone ++ [(k, st.leads.length)]
         | none => st.byPhone) := by
  unfold applyRecord getOrCreate
  cases hres : findExisting st p e <;> rfl

theorem applyRecord_byEmail (st : BuildState) (p e n : String)
    (u : UnifiedLead → UnifiedLead) :
    (applyRecord st p e n u).byEmail =
      (match findExisting st p e with
       | some _ => st.byEmail
       | none =>
         match normEmailKey e with
         | some k => st.byEmail ++ [(k, st.leads.length)]
         | none => st.byEmail) := by
  unfold applyRecord getOrCreate
  cases hres : findExisting st p e <;> rfl

theorem applyRecord_length (st : BuildState) (p e n : String)
    (u : UnifiedLead → UnifiedLead) :
    (applyRecord st p e n u).leads.length =
      (match findExisting st p e with
       | some _ => st.leads.length
       | none => st.leads.length + 1) := by
  unfold applyRecord getOrCreate
  cases hres : findExisting st p e with
  | some i => simp
  | none => simp

theorem applyRecord_shape {s1 s2 : BuildState} (h : SameShape s1 s2)
    (p e n : String) (u1 u2 : UnifiedLead → UnifiedLead) :
    SameShape (applyRecord s1 p e n u1) (applyRecord s2 p e n u2) := by
  obtain ⟨hp, he, hl⟩ := h
  have hfe := findExisting_congr hp he p e
  refine ⟨?_, ?_, ?_⟩
  · rw [applyRecord_byPhone, applyRecord_byPhone, hfe, hp, hl]
  · rw [applyRecord_byEmail, applyRecord_byEmail, hfe, he, hl]
  · rw [applyRecord_length, applyRecord_length, hfe, hl]

theorem foldl_shape {α : Type} (f : BuildState → α → BuildState)
    (hf : ∀ s1 s2 a, SameShape s1 s2 → SameShape (f s1 a) (f s2 a)) :
    ∀ (l : List α) (s1 s2 : BuildState), SameShape s1 s2 →
      SameShape (l.foldl f s1) (l.foldl f s2) := by
  intro l
  induction l with
  | nil => exact fun s1 s2 h => h
  | cons a t ih => exact fun s1 s2 h => ih _ _ (hf _ _ _ h)

theorem lookupIdx_append_of_none {m1 : List (String × Nat)}
    (m2 : List (String × Nat)) (k : String) (h : lookupIdx m1 k = none) :
    lookupIdx (m1 ++ m2) k = lookupIdx m2 k := by
  induction m1 with
  | nil => rfl
  | cons a t ih =>
    unfold lookupIdx at h ⊢
    rw [List.find?_cons] at h
    rw [List.cons_append, List.find?_cons]
    by_cases hak : a.1 = k
    · rw [show decide (a.1 = k) = true from by simp [hak]] at h
      dsimp only at h
      exact absurd h (by simp)
    · rw [show decide (a.1 = k) = false from by simp [hak]] at h ⊢
      dsimp only at h ⊢
      exact ih h

theorem lookupIdx_singleton (k : String) (i : Nat) :
    lookupIdx [(k, i)] k = some i := by
  unfold lookupIdx
  simp [List.find?_cons]

theorem length_ten_ne_empty {p : String} (h : p.length = 10) : p ≠ "" := by
  intro he
  rw [he] at h
  simp at h

theorem findExisting_after (st : BuildState) (p e n : String)
    (u : UnifiedLead → UnifiedLead) (hkey : p.length = 10 ∨ e ≠ "") :
    ∃ i, findExisting (applyRecord st p e n u) p e = some i := by
  have hbp := applyRecord_byPhone st p e n u
  have hbe := applyRecord_byEmail st p e n u
  cases hres : findExisting st p e with
  | some j =>
    refine ⟨j, ?_⟩
    rw [hres] at hbp hbe
    rw [findExisting_congr hbp hbe p e, hres]
  | none =>
    rw [hres] at hbp hbe
    dsimp only at hbp hbe
    by_cases hp10 : p.length = 10
    · have hnp : normPhoneKey p = some p := by
        unfold normPhoneKey
        rw [if_pos ⟨length_ten_ne_empty hp10, hp10⟩]
      have hlook : lookupIdx st.byPhone p = none := by
        unfold findExisting at hres
        rw [hnp] at hres
        dsimp only at hres
        cases hl : lookupIdx st.byPhone p with
        | some i =>
          rw [hl] at hres
          dsimp only at hres
          exact absurd hres (by simp)
        | none => rfl
      refine ⟨st.leads.length, ?_⟩
      unfold findExisting
      rw [hnp]
      dsimp only
      rw [hnp] at hbp
      dsimp only at hbp
      rw [hbp, lookupIdx_append_of_none _ _ hlook, lookupIdx_singleton]
    · have hemail : e ≠ "" := by
        rcases hkey with h10 | he'
        · exact absurd h10 hp10
        · exact he'
      have hnp : normPhoneKey p = none := by
        unfold normPhoneKey
        rw [if_neg]
        intro hand
        exact hp10 hand.2
      have hne : normEmailKey e = some e := by
        unfold normEmailKey
        rw [if_pos hemail]
      have hlook : lookupIdx st.byEmail e = none := by
        unfold findExisting at hres
        rw [hnp] at hres
        dsimp only at hres
        rw [hne] at hres
        dsimp only [Option.bind] at hres
        exact hres
      refine ⟨st.leads.length, ?_⟩
      unfold findExisting
      rw [hnp]
      dsimp only
      rw [hne]
      dsimp only [Option.bind]
      rw [hne] at hbe
      dsimp only at hbe
      rw [hbe, lookupIdx_append_of_none _ _ hlook, lookupIdx_singleton]

theorem applyRecord_dup_shape (st : BuildState) (p e n : String)
    (u1 u2 : UnifiedLead → UnifiedLead) (hkey : p.length = 10 ∨ e ≠ "") :
    SameShape (applyRecord (applyRecord st p e n u1) p e n u2)
      (applyRecord st p e n u1) := by
  obtain ⟨i, hi⟩ := findExisting_after st p e n u1 hkey
  generalize applyRecord st p e n u1 = st1 at hi ⊢
  refine ⟨?_, ?_, ?_⟩
  · rw [applyRecord_byPhone, hi]
  · rw [applyRecord_byEmail, hi]
  · rw [applyRecord_length, hi]

/-- C4 (amended): feeding the same record twice into `buildUnifiedLeadList`,
through any of the four source batches (Facebook leads, class RSVPs,
registration-form responses, expecting-parents tracker), yields the same
number of `UnifiedLead`s as feeding it once, provided the record carries a
dedup key (a 10-character normalized phone or a nonempty email); a keyless
record creates a fresh `UnifiedLead` on every occurrence (see the
counterexample). -/
theorem dedup_idempotent_with_key :
    (∀ (fb1 fb2 : List FbLead) (b : FbLead) (cl : List ClassRsvp)
        (fr : List FormRec) (ex : List ExpectingLead),
      b.phone.length = 10 ∨ b.email ≠ "" →
      (buildUnifiedLeadList (fb1 ++ b :: b :: fb2) cl fr ex).length =
        (buildUnifiedLeadList (fb1 ++ b :: fb2) cl fr ex).length) ∧
    (∀ (fb : List FbLead) (cl1 cl2 : List ClassRsvp) (c : ClassRsvp)
        (fr : List FormRec) (ex : List ExpectingLead),
      c.phone.length = 10 ∨ c.email ≠ "" →
      (buildUnifiedLeadList fb (cl1 ++ c :: c :: cl2) fr ex).length =
        (buildUnifiedLeadList fb (cl1 ++ c :: cl2) fr ex).length) ∧
    (∀ (fb : List FbLead) (cl : List ClassRsvp) (fr1 fr2 : List FormRec)
        (f : FormRec) (ex : List ExpectingLead),
      f.phone.length = 10 ∨ f.email ≠ "" →
      (buildUnifiedLeadList fb cl (fr1 ++ f :: f :: fr2) ex).length =
        (buildUnifiedLeadList fb cl (fr1 ++ f :: fr2) ex).length) ∧
    (∀ (fb : List FbLead) (cl : List ClassRsvp) (fr : List FormRec)
        (ex1 ex2 : List ExpectingLead) (x : ExpectingLead),
      x.phone.length = 10 ∨ x.email ≠ "" →
      (buildUnifiedLeadList fb cl fr (ex1 ++ x :: x :: ex2)).length =
        (buildUnifiedLeadList fb cl fr (ex1 ++ x :: ex2)).length) := by
  refine ⟨?_, ?_, ?_, ?_⟩
  · intro fb1 fb2 b cl fr ex hkey
    unfold buildUnifiedLeadList
    dsimp only
    rw [List.foldl_append, List.foldl_append]
    dsimp only [List.foldl_cons]
    have h1 : SameShape
        (applyFb (applyFb (fb1.foldl applyFb ⟨[], [], []⟩) b) b)
        (applyFb (fb1.foldl applyFb ⟨[], [], []⟩) b) :=
      applyRecord_dup_shape _ _ _ _ _ _ hkey
    have h2 := foldl_shape applyFb
      (fun s1 s2 a hs => applyRecord_shape hs _ _ _ _ _) fb2 _ _ h1
    have h3 := foldl_shape applyClass
      (fun s1 s2 a hs => applyRecord_shape hs _ _ _ _ _) cl _ _ h2
    have h4 := foldl_shape applyForm
      (fun s1 s2 a hs => applyRecord_shape hs _ _ _ _ _) fr _ _ h3
    have h5 := foldl_shape applyExp
      (fun s1 s2 a hs => applyRecord_shape hs _ _ _ _ _) ex _ _ h4
    exact h5.2.2
  · intro fb cl1 cl2 c fr ex hkey
    unfold buildUnifiedLeadList
    dsimp only
    rw [List.foldl_append, List.foldl_append]
    dsimp only [List.foldl_cons]
    have h1 : SameShape
        (applyClass (applyClass (cl1.foldl applyClass (fb.foldl applyFb ⟨[], [], []⟩)) c) c)
        (applyClass (cl1.foldl applyClass (fb.foldl applyFb ⟨[], [], []⟩)) c) :=
      applyRecord_dup_shape _ _ _ _ _ _ hkey
    have h2 := foldl_shape applyClass
      (fun s1 s2 a hs => applyRecord_shape hs _ _ _ _ _) cl2 _ _ h1
    have h3 := foldl_shape applyForm
      (fun s1 s2 a hs => applyRecord_shape hs _ _ _ _ _) fr _ _ h2
    have h4 := foldl_shape applyExp
      (fun s1 s2 a hs => applyRecord_shape hs _ _ _ _ _) ex _ _ h3
    exact h4.2.2
  · intro fb cl fr1 fr2 f ex hkey
    unfold buildUnifiedLeadList
    dsimp only
    rw [List.foldl_append, List.foldl_append]
    dsimp only [List.foldl_cons]
    have h1 : SameShape
        (applyForm (applyForm
          (fr1.foldl applyForm (cl.foldl applyClass
            (fb.foldl applyFb ⟨[], [], []⟩))) f) f)
        (applyForm
          (fr1.foldl applyForm (cl.foldl applyClass
            (fb.foldl applyFb ⟨[], [], []⟩))) f) :=
      applyRecord_dup_shape _ _ _ _ _ _ hkey
    have h2 := foldl_shape applyForm
      (fun s1 s2 a hs => applyRecord_shape hs _ _ _ _ _) fr2 _ _ h1
    have h3 := foldl_shape applyExp
      (fun s1 s2 a hs => applyRecord_shape hs _ _ _ _ _) ex _ _ h2
    exact h3.2.2
  · intro fb cl fr ex1 ex2 x hkey
    unfold buildUnifiedLeadList
    dsimp only
    rw [List.foldl_append, List.foldl_append]
    dsimp only [List.foldl_cons]
    have h1 : SameShape
        (applyExp (applyExp
          (ex1.foldl applyExp (fr.foldl applyForm (cl.foldl applyClass
            (fb.foldl applyFb ⟨[], [], []⟩)))) x) x)
        (applyExp
          (ex1.foldl applyExp (fr.foldl applyForm (cl.foldl applyClass
            (fb.foldl applyFb ⟨[], [], []⟩)))) x) :=
      applyRecord_dup_shape _ _ _ _ _ _ hkey
    have h2 := foldl_shape applyExp
      (fun s1 s2 a hs => applyRecord_shape hs _ _ _ _ _) ex2 _ _ h1
    exact h2.2.2

/-- Closed witness for `dedup_idempotent_with_key`: a keyed record fed twice
through each of the four source batches produces the same lead count as fed
once. -/
theorem dedup_idempotent_with_key_witness :
    ((buildUnifiedLeadList
        [{ date := none, phone := "9085550134", email := "" },
         { date := none, phone := "9085550134", email := "" }] [] [] []).length =
      (buildUnifiedLeadList
        [{ date := none, phone := "9085550134", email := "" }] [] [] []).length) ∧
    ((buildUnifiedLeadList []
        [{ name := "A", phone := "", email := "a@b.com", referralRaw := "",
           referralSource := "unknown", classesAttended := [], timestamp := none },
         { name := "A", phone := "", email := "a@b.com", referralRaw := "",
           referralSource := "unknown", classesAttended := [], timestamp := none }]
        [] []).length =
      (buildUnifiedLeadList []
        [{ name := "A", phone := "", email := "a@b.com", referralRaw := "",
           referralSource := "unknown", classesAttended := [], timestamp := none }]
        [] []).length) ∧
    ((buildUnifiedLeadList [] []
        [{ timestamp := none, name := "Jane Doe", email := "", phone := "9085550134",
           office := "", status := "not_contacted" },
         { timestamp := none, name := "Jane Doe", email := "", phone := "9085550134",
           office := "", status := "not_contacted" }] []).length =
      (buildUnifiedLeadList [] []
        [{ timestamp := none, name := "Jane Doe", email := "", phone := "9085550134",
           office := "", status := "not_contacted" }] []).length) ∧
    ((buildUnifiedLeadList [] [] []
        [{ timestamp := none, name := "B", email := "b@c.com", phone := "",
           office := "", dueDate := "", stage := "contacted" },
         { timestamp := none, name := "B", email := "b@c.com", phone := "",
           office := "", dueDate := "", stage := "contacted" }]).length =
      (buildUnifiedLeadList [] [] []
        [{ timestamp := none, name := "B", email := "b@c.com", phone := "",
           office := "", dueDate := "", stage := "contacted" }]).length) :=
  ⟨dedup_idempotent_with_key.1 [] []
      { date := none, phone := "9085550134", email := "" } [] [] [] (by decide),
   dedup_idempotent_with_key.2.1 [] [] []
      { name := "A", phone := "", email := "a@b.com", referralRaw := "",
        referralSource := "unknown", classesAttended := [], timestamp := none }
      [] [] (by decide),
   dedup_idempotent_with_key.2.2.1 [] [] [] []
      { timestamp := none, name := "Jane Doe", email := "", phone := "9085550134",
        office := "", status := "not_contacted" } [] (by decide),
   dedup_idempotent_with_key.2.2.2 [] [] [] [] []
      { timestamp := none, name := "B", email := "b@c.com", phone := "",
        office := "", dueDate := "", stage := "contacted" } (by decide)⟩

/-- C4 (counterexample): a record with neither a 10-digit phone nor an email
is fed twice and produces two `UnifiedLead`s instead of one, so `resolve` is
not dedup-idempotent for every `RawLeadRecord`. -/
theorem dedup_keyless_counterexample :
    (buildUnifiedLeadList [] []
      [{ timestamp := none, name := "Jane Doe", email := "", phone := "",
         office := "", status := "not_contacted" },
       { timestamp := none, name := "Jane Doe", email := "", phone := "",
         office := "", status := "not_contacted" }] []).length = 2 ∧
    (buildUnifiedLeadList [] []
      [{ timestamp := none, name := "Jane Doe", email := "", phone := "",
         office := "", status := "not_contacted" }] []).length = 1 :=
  ⟨by decide, by decide⟩

theorem updFirstSeen_fields (e : UnifiedLead) (d : Option Int) :
    (updFirstSeen e d).name = e.name ∧ (updFirstSeen e d).office = e.office ∧
    (updFirstSeen e d).classesAttended = e.classesAttended ∧
    (updFirstSeen e d).registrationStatus = e.registrationStatus ∧
    (updFirstSeen e d).expectingStage = e.expectingStage := by
  obtain ⟨ph, em, nm, src, att, rd, fs, off, cls, rg, exs, rt⟩ := e
  unfold updFirstSeen
  cases d with
  | none => exact ⟨rfl, rfl, rfl, rfl, rfl⟩
  | some v =>
    cases fs with
    | none => exact ⟨rfl, rfl, rfl, rfl, rfl⟩
    | some f =>
      dsimp only
      by_cases h : v < f
      · rw [if_pos h]
        exact ⟨rfl, rfl, rfl, rfl, rfl⟩
      · rw [if_neg h]
        exact ⟨rfl, rfl, rfl, rfl, rfl⟩

theorem updateAttribution_fields (e : UnifiedLead) (s d : String) :
    (updateAttribution e s d).name = e.name ∧
    (updateAttribution e s d).office = e.office ∧
    (updateAttribution e s d).classesAttended = e.classesAttended ∧
    (updateAttribution e s d).registrationStatus = e.registrationStatus ∧
    (updateAttribution e s d).expectingStage = e.expectingStage ∧
    (updateAttribution e s d).firstSeen = e.firstSeen := by
  obtain ⟨ph, em, nm, src, att, rd, fs, off, cls, rg, exs, rt⟩ := e
  unfold updateAttribution
  dsimp only
  split
  · exact ⟨rfl, rfl, rfl, rfl, rfl, rfl⟩
  · exact ⟨rfl, rfl, rfl, rfl, rfl, rfl⟩

theorem mem_pushDistinct (l : List String) (x c : String) :
    c ∈ pushDistinct l x ↔ c ∈ l ∨ c = x := by
  unfold pushDistinct
  by_cases h : x ∈ l
  · rw [if_pos h]
    constructor
    · exact fun hc => Or.inl hc
    · rintro (hc | rfl)
      · exact hc
      · exact h
  · rw [if_neg h]
    simp [List.mem_append]

theorem mem_foldl_pushDistinct (l init : List String) (c : String) :
    c ∈ l.foldl pushDistinct init ↔ c ∈ init ∨ c ∈ l := by
  induction l generalizing init with
  | nil => simp
  | cons a t ih =>
    rw [List.foldl_cons, ih, mem_pushDistinct]
    simp [List.mem_cons, or_assoc]

theorem formUpdate_name (f : FormRec) (e : UnifiedLead) :
    (formUpdate f e).name = fillIfEmpty e.name f.name := by
  unfold formUpdate
  dsimp only
  rw [(updFirstSeen_fields _ _).1, (updateAttribution_fields _ _ _).1]

theorem formUpdate_office (f : FormRec) (e : UnifiedLead) :
    (formUpdate f e).office = fillIfEmpty e.office f.office := by
  unfold formUpdate
  dsimp only
  rw [(updFirstSeen_fields _ _).2.1, (updateAttribution_fields _ _ _).2.1]

theorem formUpdate_status (f : FormRec) (e : UnifiedLead) :
    (formUpdate f e).registrationStatus = f.status := by
  unfold formUpdate
  dsimp only

theorem expUpdate_stage (x : ExpectingLead) (e : UnifiedLead) :
    (expUpdate x e).expectingStage = x.stage := by
  unfold expUpdate
  dsimp only

theorem classUpdate_classes (r : ClassRsvp) (e : UnifiedLead) :
    (classUpdate r e).classesAttended =
      r.classesAttended.foldl pushDistinct e.classesAttended := by
  unfold classUpdate
  dsimp only
  rw [(updFirstSeen_fields _ _).2.2.1, (updateAttribution_fields _ _ _).2.2.1]

theorem fillIfEmpty_of_ne (cur cand : String) (h : cur ≠ "") :
    fillIfEmpty cur cand = cur := by
  unfold fillIfEmpty
  rw [if_neg]
  intro hand
  exact h hand.1

theorem fillIfEmpty_of_empty (cur cand : String) (h1 : cur = "") (h2 : cand ≠ "") :
    fillIfEmpty cur cand = cand := by
  unfold fillIfEmpty
  rw [if_pos ⟨h1, h2⟩]

theorem classUpdate_name (r : ClassRsvp) (e : UnifiedLead) :
    (classUpdate r e).name = fillIfEmpty e.name r.name := by
  unfold classUpdate
  dsimp only
  rw [(updFirstSeen_fields _ _).1, (updateAttribution_fields _ _ _).1]

theorem classUpdate_office (r : ClassRsvp) (e : UnifiedLead) :
    (classUpdate r e).office = e.office := by
  unfold classUpdate
  dsimp only
  rw [(updFirstSeen_fields _ _).2.1, (updateAttribution_fields _ _ _).2.1]

theorem expUpdate_name (x : ExpectingLead) (e : UnifiedLead) :
    (expUpdate x e).name = fillIfEmpty e.name x.name := by
  unfold expUpdate
  dsimp only
  rw [(updFirstSeen_fields _ _).1]

theorem expUpdate_office (x : ExpectingLead) (e : UnifiedLead) :
    (expUpdate x e).office = fillIfEmpty e.office x.office := by
  unfold expUpdate
  dsimp only
  rw [(updFirstSeen_fields _ _).2.1]

theorem fbUpdate_name_office (b : FbLead) (e : UnifiedLead) :
    (fbUpdate b e).name = e.name ∧ (fbUpdate b e).office = e.office := by
  unfold fbUpdate
  exact ⟨by rw [(updFirstSeen_fields _ _).1, (updateAttribution_fields _ _ _).1],
         by rw [(updFirstSeen_fields _ _).2.1, (updateAttribution_fields _ _ _).2.1]⟩

/-- C5 (amended): in every per-record merge of `buildUnifiedLeadList`,
`office` and `name` take the first non-empty contributed value and are never
overwritten once set (the Facebook pass contributes neither, the class pass
contributes only a name, the form and expecting passes contribute both), and
`classesAttended` accumulates every distinct contributed class label; but
the status fields are not first-wins: `registrationStatus` and
`expectingStage` are assigned unconditionally by every contributing record,
so the last contributing record wins. -/
theorem merge_field_policy (e : UnifiedLead) (f : FormRec) (x : ExpectingLead)
    (r : ClassRsvp) (b : FbLead) :
    (e.name ≠ "" → (formUpdate f e).name = e.name) ∧
    (e.name = "" → f.name ≠ "" → (formUpdate f e).name = f.name) ∧
    (e.office ≠ "" → (formUpdate f e).office = e.office) ∧
    (e.office = "" → f.office ≠ "" → (formUpdate f e).office = f.office) ∧
    (e.name ≠ "" → (classUpdate r e).name = e.name) ∧
    (e.name = "" → r.name ≠ "" → (classUpdate r e).name = r.name) ∧
    ((classUpdate r e).office = e.office) ∧
    (e.name ≠ "" → (expUpdate x e).name = e.name) ∧
    (e.name = "" → x.name ≠ "" → (expUpdate x e).name = x.name) ∧
    (e.office ≠ "" → (expUpdate x e).office = e.office) ∧
    (e.office = "" → x.office ≠ "" → (expUpdate x e).office = x.office) ∧
    ((fbUpdate b e).name = e.name ∧ (fbUpdate b e).office = e.office) ∧
    ((formUpdate f e).registrationStatus = f.status) ∧
    ((expUpdate x e).expectingStage = x.stage) ∧
    (∀ c, c ∈ (classUpdate r e).classesAttended ↔
      (c ∈ e.classesAttended ∨ c ∈ r.classesAttended)) := by
  refine ⟨?_, ?_, ?_, ?_, ?_, ?_, classUpdate_office r e, ?_, ?_, ?_, ?_,
    fbUpdate_name_office b e, formUpdate_status f e, expUpdate_stage x e, ?_⟩
  · intro hne
    rw [formUpdate_name]
    exact fillIfEmpty_of_ne _ _ hne
  · intro he hf
    rw [formUpdate_name]
    exact fillIfEmpty_of_empty _ _ he hf
  · intro hne
    rw [formUpdate_office]
    exact fillIfEmpty_of_ne _ _ hne
  · intro he hf
    rw [formUpdate_office]
    exact fillIfEmpty_of_empty _ _ he hf
  · intro hne
    rw [classUpdate_name]
    exact fillIfEmpty_of_ne _ _ hne
  · intro he hr
    rw [classUpdate_name]
    exact fillIfEmpty_of_empty _ _ he hr
  · intro hne
    rw [expUpdate_name]
    exact fillIfEmpty_of_ne _ _ hne
  · intro he hx
    rw [expUpdate_name]
    exact fillIfEmpty_of_empty _ _ he hx
  · intro hne
    rw [expUpdate_office]
    exact fillIfEmpty_of_ne _ _ hne
  · intro he hx
    rw [expUpdate_office]
    exact fillIfEmpty_of_empty _ _ he hx
  · intro c
    rw [classUpdate_classes, mem_foldl_pushDistinct]

/-- Closed witness for `merge_field_policy`: a lead with a name keeps it
through form, class and expecting contributions; the empty office takes the
first contributed value; the status is overwritten. -/
theorem merge_field_policy_witness :
    (formUpdate
      { timestamp := none, name := "New Name", email := "", phone := "",
        office := "Warren", status := "declined" }
      { phone := "", email := "", name := "Kept Name", sources := [],
        attribution := "unknown", referralDetail := "", firstSeen := none,
        office := "", classesAttended := [], registrationStatus := "scheduled",
        expectingStage := "", registrationTimestamp := none }).name = "Kept Name" ∧
    (formUpdate
      { timestamp := none, name := "New Name", email := "", phone := "",
        office := "Warren", status := "declined" }
      { phone := "", email := "", name := "Kept Name", sources := [],
        attribution := "unknown", referralDetail := "", firstSeen := none,
        office := "", classesAttended := [], registrationStatus := "scheduled",
        expectingStage := "", registrationTimestamp := none }).office = "Warren" ∧
    (formUpdate
      { timestamp := none, name := "New Name", email := "", phone := "",
        office := "Warren", status := "declined" }
      { phone := "", email := "", name := "Kept Name", sources := [],
        attribution := "unknown", referralDetail := "", firstSeen := none,
        office := "", classesAttended := [], registrationStatus := "scheduled",
        expectingStage := "", registrationTimestamp := none }).registrationStatus =
      "declined" ∧
    (classUpdate
      { name := "Class Name", phone := "", email := "", referralRaw := "",
        referralSource := "unknown", classesAttended := [], timestamp := none }
      { phone := "", email := "", name := "Kept Name", sources := [],
        attribution := "unknown", referralDetail := "", firstSeen := none,
        office := "", classesAttended := [], registrationStatus := "scheduled",
        expectingStage := "", registrationTimestamp := none }).name = "Kept Name" ∧
    (expUpdate
      { timestamp := none, name := "Exp Name", email := "", phone := "",
        office := "Fanwood", dueDate := "", stage := "contacted" }
      { phone := "", email := "", name := "Kept Name", sources := [],
        attribution := "unknown", referralDetail := "", firstSeen := none,
        office := "", classesAttended := [], registrationStatus := "scheduled",
        expectingStage := "", registrationTimestamp := none }).office = "Fanwood" := by
  have h := merge_field_policy
    { phone := "", email := "", name := "Kept Name", sources := [],
      attribution := "unknown", referralDetail := "", firstSeen := none,
      office := "", classesAttended := [], registrationStatus := "scheduled",
      expectingStage := "", registrationTimestamp := none }
    { timestamp := none, name := "New Name", email := "", phone := "",
      office := "Warren", status := "declined" }
    { timestamp := none, name := "Exp Name", email := "", phone := "",
      office := "Fanwood", dueDate := "", stage := "contacted" }
    { name := "Class Name", phone := "", email := "", referralRaw := "",
      referralSource := "unknown", classesAttended := [], timestamp := none }
    { date := none, phone := "", email := "" }
  exact ⟨h.1 (by decide),
    h.2.2.2.1 (by decide) (by decide),
    h.2.2.2.2.2.2.2.2.2.2.2.2.1,
    h.2.2.2.2.1 (by decide),
    h.2.2.2.2.2.2.2.2.2.2.1 (by decide) (by decide)⟩

/-- C5 (counterexample): two form records merging into one identity; the
claim says the status field takes the first non-empty contributed value and
is never overwritten, but the second record's status wins. -/
theorem status_overwrite_counterexample :
    ((buildUnifiedLeadList [] []
      [{ timestamp := none, name := "A B", email := "", phone := "9085550134",
         office := "", status := "scheduled" },
       { timestamp := none, name := "A B", email := "", phone := "9085550134",
         office := "", status := "declined" }] []).map
        (fun l => l.registrationStatus)) = ["declined"] ∧
    ("declined" : String) ≠ "scheduled" :=
  ⟨by decide, by decide⟩

theorem cellAt_empty {row : List String} (h : ∀ s ∈ row, s = "") (c : Int) :
    cellAt row c = "" := by
  unfold cellAt
  by_cases hc : c ≥ 0
  · rw [if_pos hc]
    cases hg : row.get? c.toNat with
    | none => rfl
    | some v =>
      rw [h v (List.get?_mem hg)]
      rfl
  · rw [if_neg hc]

theorem claimed_fold_nodup (ehrPatients : List EhrPatient)
    (leads : List UnifiedLead) :
    ∀ acc : List Nat, acc.Nodup →
      (leads.foldl
        (fun claimed lead =>
          match resolveAgainst ehrPatients lead with
          | some p => if p.patient_id ∈ claimed then claimed
                      else claimed ++ [p.patient_id]
          | none => claimed) acc).Nodup := by
  induction leads with
  | nil => exact fun acc h => h
  | cons l t ih =>
    intro acc h
    rw [List.foldl_cons]
    apply ih
    cases hres : resolveAgainst ehrPatients l with
    | none => exact h
    | some p =>
      dsimp only
      by_cases hmem : p.patient_id ∈ acc
      · rw [if_pos hmem]
        exact h
      · rw [if_neg hmem]
        simp [List.nodup_append, h, hmem]

theorem claimed_fold_mem (ehrPatients : List EhrPatient)
    (leads : List UnifiedLead) (pid : Nat) :
    ∀ acc : List Nat,
      (pid ∈ leads.foldl
        (fun claimed lead =>
          match resolveAgainst ehrPatients lead with
          | some p => if p.patient_id ∈ claimed then claimed
                      else claimed ++ [p.patient_id]
          | none => claimed) acc ↔
        pid ∈ acc ∨ ∃ l ∈ leads,
          (resolveAgainst ehrPatients l).map (fun p => p.patient_id) = some pid) := by
  induction leads with
  | nil => simp
  | cons l t ih =>
    intro acc
    rw [List.foldl_cons, ih]
    cases hres : resolveAgainst ehrPatients l with
    | none =>
      simp only [hres, Option.map_none']
      constructor
      · rintro (hacc | hex)
        · exact Or.inl hacc
        · exact Or.inr ⟨hex.choose, List.mem_cons_of_mem l hex.choose_spec.1,
            hex.choose_spec.2⟩
      · rintro (hacc | ⟨l2, hl2, hmap⟩)
        · exact Or.inl hacc
        · rcases List.mem_cons.mp hl2 with rfl | hl2t
          · rw [hres] at hmap
            exact absurd hmap (by simp)
          · exact Or.inr ⟨l2, hl2t, hmap⟩
    | some p =>
      dsimp only
      by_cases hmem : p.patient_id ∈ acc
      · rw [if_pos hmem]
        constructor
        · rintro (hacc | hex)
          · exact Or.inl hacc
          · exact Or.inr ⟨hex.choose, List.mem_cons_of_mem l hex.choose_spec.1,
              hex.choose_spec.2⟩
        · rintro (hacc | ⟨l2, hl2, hmap⟩)
          · exact Or.inl hacc
          · rcases List.mem_cons.mp hl2 with rfl | hl2t
            · rw [hres] at hmap
              simp only [Option.map_some'] at hmap
              rw [Option.some.inj hmap] at hmem
              exact Or.inl hmem
            · exact Or.inr ⟨l2, hl2t, hmap⟩
      · rw [if_neg hmem]
        constructor
        · rintro (hacc | hex)
          · rcases List.mem_append.mp hacc with hacc2 | hpid
            · exact Or.inl hacc2
            · refine Or.inr ⟨l, List.mem_cons_self l t, ?_⟩
              rw [hres]
              simp only [Option.map_some']
              exact congrArg some (List.mem_singleton.mp hpid).symm
          · exact Or.inr ⟨hex.choose, List.mem_cons_of_mem l hex.choose_spec.1,
              hex.choose_spec.2⟩
        · rintro (hacc | ⟨l2, hl2, hmap⟩)
          · exact Or.inl (List.mem_append.mpr (Or.inl hacc))
          · rcases List.mem_cons.mp hl2 with rfl | hl2t
            · rw [hres] at hmap
              simp only [Option.map_some'] at hmap
              exact Or.inl (List.mem_append.mpr
                (Or.inr (by rw [Option.some.inj hmap]; exact List.mem_singleton_self _)))
            · exact Or.inr ⟨l2, hl2t, hmap⟩

/-- C1: every `EHRCandidate` is claimed at most once globally.  The claimed
patient-id list built by `matchLeadsToEHR` is duplicate-free, and an id is
claimed (counted once as matched in the aggregate statistics) exactly when
some lead's tiered lookup resolves to that candidate — every further lead
resolving to the same candidate finds the id already claimed and stays
unmatched. -/
theorem ehr_candidate_claimed_once :
    ∀ (ehrPatients : List EhrPatient) (unifiedLeads : List UnifiedLead)
      (pid : Nat),
      (matchedPatientIds ehrPatients unifiedLeads).Nodup ∧
      (pid ∈ matchedPatientIds ehrPatients unifiedLeads ↔
        ∃ l ∈ unifiedLeads,
          (resolveAgainst ehrPatients l).map (fun p => p.patient_id) = some pid) := by
  intro ehrPatients unifiedLeads pid
  constructor
  · exact claimed_fold_nodup ehrPatients unifiedLeads [] List.nodup_nil
  · rw [matchedPatientIds, claimed_fold_mem]
    simp
